import Mathlib

/-!
Verification development for the litestar repository snapshot.

The snapshot contains three source files: the compression-middleware test
suite (`src/tests/middleware/test_compression_middleware.py`), the
repository filter value objects (`src/litestar/contrib/repository/filters.py`)
and a DTO field-renaming example
(`src/docs/examples/data_transfer_objects/factory/tutorial/explicit_field_renaming.py`).

The production code of the compression middleware (config validation,
content negotiation, the stream transform engine) and of the DTO factory is
not part of the snapshot; those parts are modelled from the specification
(spec.md sections 3, 4.1 - 4.5, 6) and are marked `Modelled from the spec:`
in their doc comments.  The filter dataclasses and the test-file logic are
embedded directly from the source.
-/

/-! ## Codec adapters (spec section 4.3)

Modelled from the spec: the repository wraps two external compression
libraries (gzip-family and brotli-family) behind one capability interface:
push bytes in, pull compressed bytes out, finalize to flush trailing frame
data.  The concrete algorithms live in external libraries and are absent
from the snapshot; they are modelled here by a verified periodic-block
coder over byte lists.  What matters for the claims is the interface
contract: a deterministic `compress`, a matching `decompress` that inverts
it (round-trip law), and genuine size reduction on highly repetitive
input. -/

/-- Unary self-delimiting encoding of a natural number as bytes:
`n` ones followed by a zero. -/
def unaryEnc (n : Nat) : List Nat :=
  List.replicate n 1 ++ [0]

/-- Decoder for `unaryEnc`: counts leading nonzero bytes up to the first
zero, returning the count and the remaining bytes. -/
def unaryDec : List Nat → Option (Nat × List Nat)
  | [] => none
  | 0 :: rest => some (0, rest)
  | _ :: rest =>
    match unaryDec rest with
    | some (n, r) => some (n + 1, r)
    | none => none

/-- Check whether `bs` is a whole number (at least two) of repetitions of
its first `d` bytes. -/
def repCheck (bs : List Nat) (d : Nat) : Bool :=
  if 0 < d ∧ d < bs.length ∧ bs.length % d = 0 then
    bs == (List.replicate (bs.length / d) (bs.take d)).flatten
  else false

/-- Search for the smallest period `d` with `1 ≤ d ≤ k` such that
`repCheck bs d` holds. -/
def findPeriod (bs : List Nat) : Nat → Option Nat
  | 0 => none
  | k + 1 =>
    match findPeriod bs k with
    | some d => some d
    | none => if repCheck bs (k + 1) then some (k + 1) else none

/-- Modelled from the spec: the core compression transform of a codec
adapter.  If the input is a repetition of a short block (period at most
16), emit a tagged frame holding the period, the repetition count and one
block; otherwise emit the input verbatim behind a literal tag. -/
def docCompress (bs : List Nat) : List Nat :=
  match findPeriod bs 16 with
  | some d => 1 :: (unaryEnc d ++ unaryEnc (bs.length / d) ++ bs.take d)
  | none => 0 :: bs

/-- Modelled from the spec: the inverse transform of `docCompress`. -/
def docDecompress (cs : List Nat) : Option (List Nat) :=
  match cs with
  | 0 :: rest => some rest
  | 1 :: rest =>
    match unaryDec rest with
    | some (_, r1) =>
      match unaryDec r1 with
      | some (n, p) => some (List.replicate n p).flatten
      | none => none
    | none => none
  | _ => none

/-- Content encodings that the middleware can negotiate
(spec: `NegotiatedEncoding` minus the `none` case, which is rendered as
`Option CEnc` below). -/
inductive CEnc where
  | gzip
  | br
deriving DecidableEq, Repr

/-- Header token of an encoding, as it appears in `Content-Encoding` and
`Accept-Encoding` headers. -/
def CEnc.token : CEnc → String
  | .gzip => "gzip"
  | .br => "br"

/-- Modelled from the spec: per-encoding framing — each codec marks its
frames with a distinct leading magic byte. -/
def codecCompress (e : CEnc) (bs : List Nat) : List Nat :=
  match e with
  | .gzip => 31 :: docCompress bs
  | .br => 66 :: docCompress bs

/-- Modelled from the spec: decompression with a given codec; fails on a
frame of the other codec. -/
def codecDecompress (e : CEnc) (cs : List Nat) : Option (List Nat) :=
  match e, cs with
  | .gzip, 31 :: rest => docDecompress rest
  | .br, 66 :: rest => docDecompress rest
  | _, _ => none

/-! ## CompressionConfig and its validator (spec sections 3, 4.1) -/

/-- Backend selector of the middleware configuration. -/
inductive Backend where
  | gzip
  | brotli
deriving DecidableEq, Repr

/-- Brotli mode knob (spec: enum of generic, text, font). -/
inductive BrotliMode where
  | generic
  | text
  | font
deriving DecidableEq, Repr

/-- Modelled from the spec: the immutable configuration record of the
compression middleware.  Numeric knobs are carried as integers so that
out-of-range candidates (for example `-1`) are representable before
validation. -/
structure CompressionConfig where
  backend : Backend
  minimum_size : Int
  gzip_compress_level : Int
  brotli_quality : Int
  brotli_mode : BrotliMode
  brotli_lgwin : Int
  brotli_gzip_fallback : Bool
deriving DecidableEq, Repr

/-- Fields that can fail range validation at construction time. -/
inductive ConfigField where
  | minimum_size
  | gzip_compress_level
  | brotli_quality
  | brotli_lgwin
deriving DecidableEq, Repr

/-- Structured configuration error: the offending field and its legal
inclusive range (no upper bound for `minimum_size`). -/
structure ConfigError where
  offending : ConfigField
  lo : Int
  hi : Option Int
deriving DecidableEq, Repr

/-- Modelled from the spec: construction-time validation of a candidate
configuration.  Ranges: `minimum_size ≥ 1`, `gzip_compress_level` in
`[0, 9]`, `brotli_quality` in `[0, 11]`, `brotli_lgwin` in `[10, 24]`.
Validation failure is rendered as a result type per spec section 9. -/
def mkCompressionConfig (backend : Backend) (minimum_size : Int)
    (gzip_compress_level : Int) (brotli_quality : Int)
    (brotli_mode : BrotliMode) (brotli_lgwin : Int)
    (brotli_gzip_fallback : Bool) : Except ConfigError CompressionConfig :=
  if minimum_size < 1 then
    .error { offending := .minimum_size, lo := 1, hi := none }
  else if gzip_compress_level < 0 ∨ 9 < gzip_compress_level then
    .error { offending := .gzip_compress_level, lo := 0, hi := some 9 }
  else if brotli_quality < 0 ∨ 11 < brotli_quality then
    .error { offending := .brotli_quality, lo := 0, hi := some 11 }
  else if brotli_lgwin < 10 ∨ 24 < brotli_lgwin then
    .error { offending := .brotli_lgwin, lo := 10, hi := some 24 }
  else
    .ok { backend := backend, minimum_size := minimum_size,
          gzip_compress_level := gzip_compress_level,
          brotli_quality := brotli_quality, brotli_mode := brotli_mode,
          brotli_lgwin := brotli_lgwin,
          brotli_gzip_fallback := brotli_gzip_fallback }

/-- Modelled from the spec: the configuration produced by
`CompressionConfig(backend=...)` with every other knob left at its default
(spec: defaults are implementation-defined; `minimum_size` defaults to a
positive value greater than 10, and the gzip fallback of the brotli
backend is on by default, as the passing fallback tests require). -/
def defaultConfig (b : Backend) : CompressionConfig :=
  { backend := b, minimum_size := 500, gzip_compress_level := 9,
    brotli_quality := 5, brotli_mode := .generic, brotli_lgwin := 22,
    brotli_gzip_fallback := true }

/-! ## Negotiator (spec section 4.2) -/

/-- Modelled from the spec: pick the encoding to apply from the client's
accepted-encoding tokens and the active configuration.  Gzip backend:
gzip iff the client accepts gzip.  Brotli backend: brotli iff the client
accepts brotli; else gzip iff the client accepts gzip and the gzip
fallback is enabled; else none. -/
def negotiate (cfg : CompressionConfig) (accept : List String) : Option CEnc :=
  match cfg.backend with
  | .gzip => if accept.contains "gzip" then some .gzip else none
  | .brotli =>
    if accept.contains "br" then some .br
    else if accept.contains "gzip" && cfg.brotli_gzip_fallback then some .gzip
    else none

/-! ## Stream transform engine (spec sections 4.4, 4.5) -/

/-- Body of a response: either fully buffered, or produced as a stream of
chunks with no known total length. -/
inductive RBody where
  | buffered (data : List Nat)
  | streamed (chunks : List (List Nat))
deriving DecidableEq, Repr

/-- Response-scope carrier seen by the middleware: the framing headers the
claims are about, the body, and the protocol-upgrade flag. -/
structure Response where
  contentLength : Option Nat
  contentEncoding : Option CEnc
  body : RBody
  isUpgrade : Bool
deriving DecidableEq, Repr

/-- Concatenation of every body byte the sink receives. -/
def Response.bodyBytes (r : Response) : List Nat :=
  match r.body with
  | .buffered data => data
  | .streamed chunks => chunks.flatten

/-- Modelled from the spec: a live codec adapter instance, owned by one
response.  This adapter buffers pushed chunks internally (the interface
allows `compress` to return empty while buffering) and emits the whole
compressed frame at `finish`. -/
structure CodecAdapter where
  enc : CEnc
  buffer : List Nat
deriving DecidableEq, Repr

/-- Push one chunk into the adapter: returns the bytes ready to forward
(none, with this buffering strategy) and the updated adapter. -/
def CodecAdapter.push (a : CodecAdapter) (chunk : List Nat) :
    List Nat × CodecAdapter :=
  ([], { a with buffer := a.buffer ++ chunk })

/-- Finalize the adapter: flush the compressed frame for everything
pushed. -/
def CodecAdapter.finish (a : CodecAdapter) : List Nat :=
  codecCompress a.enc a.buffer

/-- Modelled from the spec: the per-chunk output sequence of the stream
transform engine for a streamed body — each incoming chunk is pushed
through the adapter and its ready output forwarded, and on end-of-body the
adapter's `finish` output is forwarded as the final chunk. -/
def compressStreamStep (acc : List (List Nat) × CodecAdapter)
    (c : List Nat) : List (List Nat) × CodecAdapter :=
  (acc.1 ++ [(acc.2.push c).1], (acc.2.push c).2)

def compressStream (e : CEnc) (chunks : List (List Nat)) : List (List Nat) :=
  let start : CodecAdapter := { enc := e, buffer := [] }
  let result := chunks.foldl compressStreamStep ([], start)
  result.1 ++ [result.2.finish]

/-- Modelled from the spec: the decision sequence of the stream transform
engine, evaluated once per response.  Passthrough when negotiation yields
none or the response is a protocol upgrade; small-body exemption for a
buffered body shorter than `minimum_size`; buffered bodies are compressed
whole with an accurate `Content-Length`; streamed bodies are compressed
chunkwise with no `Content-Length`. -/
def transformResponse (cfg : CompressionConfig) (accept : List String)
    (resp : Response) : Response :=
  if resp.isUpgrade then resp
  else
    match negotiate cfg accept with
    | none => resp
    | some e =>
      match resp.body with
      | .buffered data =>
        if (data.length : Int) < cfg.minimum_size then resp
        else
          let compressed := codecCompress e data
          { contentLength := some compressed.length
            contentEncoding := some e
            body := .buffered compressed
            isUpgrade := false }
      | .streamed chunks =>
        { contentLength := none
          contentEncoding := some e
          body := .streamed (compressStream e chunks)
          isUpgrade := false }

/-! ## Concrete test data (from the test source) -/

/-- Byte values of the string `"_litestar_"` used by the tests. -/
def litestarBlock : List Nat :=
  [95, 108, 105, 116, 101, 115, 116, 97, 114, 95]

/-- Byte values of the 40000-byte test body `"_litestar_" * 4000`. -/
def litestarBody : List Nat :=
  (List.replicate 4000 litestarBlock).flatten

/-- Buffered test response produced by the route handler of the test
fixture: a 40000-byte text body with its accurate `Content-Length`. -/
def handlerResponse : Response :=
  { contentLength := some 40000, contentEncoding := none,
    body := .buffered litestarBody, isUpgrade := false }

/-- Matching encoding of each backend. -/
def Backend.matching : Backend → CEnc
  | .gzip => .gzip
  | .brotli => .br

/-! ## Repository filter value objects
(embedded from `src/litestar/contrib/repository/filters.py`) -/

/-- Stand-in for Python's `datetime` values; the filters only store them. -/
def DateTime := Int

/-- Embedding of the `Literal["asc", "desc"]` annotation of `OrderBy`. -/
inductive SortOrder where
  | asc
  | desc
deriving DecidableEq, Repr

/-- Data required to filter a query on a datetime column
(`BeforeAfter` dataclass). -/
structure BeforeAfter where
  field_name : String
  before : Option DateTime
  after : Option DateTime

/-- Data required to construct a `WHERE ... IN (...)` clause
(`CollectionFilter` dataclass). -/
structure CollectionFilter (T : Type) where
  field_name : String
  values : List T

/-- Data required to add limit/offset filtering to a query
(`LimitOffset` dataclass). -/
structure LimitOffset where
  limit : Int
  offset : Int

/-- Data required to construct an `ORDER BY ...` clause
(`OrderBy` dataclass, with its default sort order). -/
structure OrderBy where
  field_name : String
  sort_order : SortOrder := .asc

/-- Data required to construct a `LIKE` search clause
(`SearchFilter` dataclass, with its default case flag). -/
structure SearchFilter where
  field_name : String
  value : String
  ignore_case : Option Bool := some false

/-! ## DTO field-renaming example
(embedded from
`src/docs/examples/data_transfer_objects/factory/tutorial/explicit_field_renaming.py`;
the serializer of the DTO factory is not in the snapshot and is modelled
from the declarative meaning of `exclude` paths and `rename_fields`) -/

/-- The `Address` dataclass of the example. -/
structure Address where
  street : String
  city : String
  country : String
deriving DecidableEq, Repr

/-- The recursive `Person` dataclass of the example. -/
inductive Person where
  | mk (name : String) (age : Nat) (email : String) (address : Address)
      (children : List Person)

/-- Serialized JSON-shaped representation of a transferred value. -/
inductive JVal where
  | str (s : String)
  | num (n : Nat)
  | obj (fields : List (String × JVal))
  | arr (items : List JVal)

/-- Exclusion paths that apply below field `f`: strip the leading segment
`f` from every declared path that descends into `f`. -/
def subPaths (f : String) (ps : List (List String)) : List (List String) :=
  ps.filterMap fun p =>
    match p with
    | a :: b :: rest => if a = f then some (b :: rest) else none
    | _ => none

/-- Whether field `f` is excluded outright at the current level. -/
def isExcluded (f : String) (ps : List (List String)) : Bool :=
  ps.contains [f]

/-- Serialized name of field `f` under the rename map. -/
def renameOf (rs : List (String × String)) (f : String) : String :=
  match rs.find? (fun pr => pr.1 == f) with
  | some pr => pr.2
  | none => f

/-- Modelled from the spec: serialization of an `Address` under exclusion
paths and a rename map. -/
def serializeAddress (ex : List (List String)) (rs : List (String × String))
    (a : Address) : JVal :=
  .obj
    ((if isExcluded "street" ex then [] else
        [(renameOf rs "street", JVal.str a.street)]) ++
     (if isExcluded "city" ex then [] else
        [(renameOf rs "city", JVal.str a.city)]) ++
     (if isExcluded "country" ex then [] else
        [(renameOf rs "country", JVal.str a.country)]))

mutual

/-- Modelled from the spec: serialization of a `Person` under exclusion
paths and a rename map.  The example declares renames only at the top
level of the transferred model, so nested values carry no rename map. -/
def serializePerson (ex : List (List String)) (rs : List (String × String)) :
    Person → JVal
  | .mk n a e addr ch =>
    .obj
      ((if isExcluded "name" ex then [] else
          [(renameOf rs "name", JVal.str n)]) ++
       (if isExcluded "age" ex then [] else
          [(renameOf rs "age", JVal.num a)]) ++
       (if isExcluded "email" ex then [] else
          [(renameOf rs "email", JVal.str e)]) ++
       (if isExcluded "address" ex then [] else
          [(renameOf rs "address",
            serializeAddress (subPaths "address" ex) [] addr)]) ++
       (if isExcluded "children" ex then [] else
          [(renameOf rs "children",
            JVal.arr (serializeChildren (subPaths "children" ex) 0 ch))]))

/-- Serialization of a children list: element `i` is serialized under the
exclusion paths that name index `i`. -/
def serializeChildren (ex : List (List String)) (i : Nat) :
    List Person → List JVal
  | [] => []
  | c :: cs =>
    serializePerson (subPaths (toString i) ex) [] c ::
      serializeChildren ex (i + 1) cs

end

/-- Exclusion paths declared by `ReadDTO`'s `DTOConfig`. -/
def readDTOExclude : List (List String) :=
  [["email"], ["address", "street"], ["children", "0", "email"],
   ["children", "0", "address"]]

/-- Rename map declared by `ReadDTO`'s `DTOConfig`. -/
def readDTORename : List (String × String) :=
  [("address", "location")]

/-- Serialization through `ReadDTO`. -/
def serializeReadDTO (p : Person) : JVal :=
  serializePerson readDTOExclude readDTORename p

/-- The `Address` value constructed inside `get_person`. -/
def tutorialAddress : Address :=
  { street := "123 Main St", city := "Cityville", country := "Countryland" }

/-- The first child constructed inside `get_person`. -/
def child1 : Person :=
  .mk "Child1" 10 "child1@example.com" tutorialAddress []

/-- The second child constructed inside `get_person`. -/
def child2 : Person :=
  .mk "Child2" 8 "child2@example.com" tutorialAddress []

/-- The route handler `get_person` of the example. -/
def get_person (name : String) : Person :=
  .mk name 30 ("email_of_" ++ name ++ "@example.com") tutorialAddress
    [child1, child2]

/-- Whether a serialized object carries key `k` at its top level. -/
def JVal.hasKey (j : JVal) (k : String) : Bool :=
  match j with
  | .obj fs => fs.any (fun pr => pr.1 == k)
  | _ => false

/-- Top-level field `k` of a serialized object. -/
def JVal.getKey (j : JVal) (k : String) : Option JVal :=
  match j with
  | .obj fs => (fs.find? (fun pr => pr.1 == k)).map (fun pr => pr.2)
  | _ => none

/-- First element of a serialized array. -/
def JVal.firstItem : JVal → Option JVal
  | .arr (x :: _) => some x
  | _ => none

/-! ## Embedding of the test-file logic the claims inspect -/

/-- Embedding of the client construction in
`test_regular_compressed_response`: the configuration passed to
`create_test_client` as a function of the parametrized `backend` argument.
The test writes `CompressionConfig(backend="brotli")` in both parametrized
cases, never mentioning the parameter. -/
def testRegularCompressedResponseConfig (backend : String) :
    CompressionConfig :=
  defaultConfig .brotli

/-! ## Codec lemmas -/

/-- Decoding inverts the unary encoding, leaving trailing bytes intact. -/
theorem unaryDec_enc (n : Nat) (rest : List Nat) :
    unaryDec (unaryEnc n ++ rest) = some (n, rest) := by
  induction n with
  | zero => simp [unaryEnc, unaryDec]
  | succ k ih =>
    have h : unaryEnc (k + 1) ++ rest = 1 :: (unaryEnc k ++ rest) := by
      simp [unaryEnc, List.replicate_succ]
    rw [h]
    simp [unaryDec, ih]

/-- Successful period search implies the repetition check holds. -/
theorem findPeriod_sound (bs : List Nat) (k d : Nat)
    (h : findPeriod bs k = some d) : repCheck bs d = true := by
  induction k with
  | zero => simp [findPeriod] at h
  | succ m ih =>
    rw [findPeriod] at h
    cases hm : findPeriod bs m with
    | some x =>
      rw [hm] at h
      cases h
      exact ih hm
    | none =>
      rw [hm] at h
      by_cases hr : repCheck bs (m + 1) = true
      · rw [if_pos hr] at h
        cases h
        exact hr
      · rw [if_neg hr] at h
        cases h

/-- Unfolding of a successful repetition check. -/
theorem repCheck_eq (bs : List Nat) (d : Nat) (h : repCheck bs d = true) :
    bs = (List.replicate (bs.length / d) (bs.take d)).flatten := by
  unfold repCheck at h
  split at h
  · exact eq_of_beq h
  · exact absurd h (by simp)

/-- Round-trip law of the core transform: decompression inverts
compression on every byte list. -/
theorem doc_roundtrip (bs : List Nat) :
    docDecompress (docCompress bs) = some bs := by
  unfold docCompress
  cases hf : findPeriod bs 16 with
  | none => simp [docDecompress]
  | some d =>
    have hrep := repCheck_eq bs d (findPeriod_sound bs 16 d hf)
    show docDecompress
      (1 :: (unaryEnc d ++ unaryEnc (bs.length / d) ++ bs.take d)) = some bs
    rw [List.append_assoc]
    simp only [docDecompress, unaryDec_enc]
    exact congrArg some hrep.symm

/-- Round-trip law of each codec adapter. -/
theorem codec_roundtrip (e : CEnc) (bs : List Nat) :
    codecDecompress e (codecCompress e bs) = some bs := by
  cases e <;> simp [codecCompress, codecDecompress, doc_roundtrip]

/-- Length of a flattened replication. -/
theorem flatten_replicate_length (n : Nat) (p : List Nat) :
    (List.replicate n p).flatten.length = n * p.length := by
  induction n with
  | zero => simp
  | succ k ih =>
    rw [List.replicate_succ]
    simp [ih, Nat.succ_mul]
    omega

/-- Peeling one block off a flattened replication. -/
theorem flatten_replicate_cons (n : Nat) (p : List Nat) :
    (List.replicate (n + 1) p).flatten = p ++ (List.replicate n p).flatten := by
  rw [List.replicate_succ]
  simp

/-- Flattening a replication of flattened replications multiplies the
counts. -/
theorem flatten_replicate_flatten (m n : Nat) (p : List Nat) :
    (List.replicate m (List.replicate n p).flatten).flatten =
      (List.replicate (m * n) p).flatten := by
  induction m with
  | zero => simp
  | succ k ih =>
    rw [flatten_replicate_cons, ih, Nat.succ_mul, Nat.add_comm,
      List.replicate_add, List.flatten_append]

/-- Length of the 40000-byte test body. -/
theorem litestarBody_length : litestarBody.length = 40000 := by
  rw [litestarBody, flatten_replicate_length]
  rfl

/-- Decomposition of the test body as one block and a remainder. -/
theorem litestarBody_decomp :
    litestarBody =
      litestarBlock ++ (List.replicate 3999 litestarBlock).flatten := by
  rw [litestarBody, show (4000 : Nat) = 3999 + 1 from rfl,
    flatten_replicate_cons]

/-- The first ten bytes of the test body are one block. -/
theorem litestarBody_take10 : litestarBody.take 10 = litestarBlock := by
  rw [litestarBody_decomp,
    show (10 : Nat) = litestarBlock.length from rfl, List.take_left]

/-- Short prefixes of the test body come from its first block. -/
theorem litestarBody_take_le (d : Nat) (h : d ≤ 10) :
    litestarBody.take d = litestarBlock.take d := by
  rw [litestarBody_decomp, List.take_append_of_le_length]
  exact le_trans h (by rfl)

/-- Early bytes of the test body come from its first block. -/
theorem litestarBody_getElem (i : Nat) (h : i < 10) :
    litestarBody[i]? = litestarBlock[i]? := by
  rw [litestarBody_decomp, List.getElem?_append]
  rw [if_pos]
  exact lt_of_lt_of_le h (by rfl)

/-- Modulo-periodicity witness: in a flattened replication of at least two
copies of a nonempty block, the byte right after the first block equals
the first byte. -/
theorem flatten_replicate_period (p : List Nat) (m i : Nat) (hm : 2 ≤ m)
    (hp : 0 < p.length) (hi : i = p.length) :
    (List.replicate m p).flatten[i]? = p[0]? := by
  obtain ⟨k, rfl⟩ : ∃ k, m = k + 1 + 1 := ⟨m - 2, by omega⟩
  rw [flatten_replicate_cons, List.getElem?_append, if_neg (by omega), hi,
    Nat.sub_self, flatten_replicate_cons, List.getElem?_append,
    if_pos hp]

/-- Lists that differ at one position are different. -/
theorem ne_of_getElem_ne {α : Type} (xs ys : List α) (i : Nat)
    (h : xs[i]? ≠ ys[i]?) : xs ≠ ys := fun he => h (he ▸ rfl)

/-- Failing repetition check from a byte mismatch. -/
theorem repCheck_false_of_ne (bs : List Nat) (d : Nat)
    (h : bs ≠ (List.replicate (bs.length / d) (bs.take d)).flatten) :
    repCheck bs d = false := by
  unfold repCheck
  split
  · exact beq_eq_false_iff_ne.mpr h
  · rfl

/-- Failing repetition check from a failing side condition. -/
theorem repCheck_false_of_cond (bs : List Nat) (d : Nat)
    (h : ¬(0 < d ∧ d < bs.length ∧ bs.length % d = 0)) :
    repCheck bs d = false := by
  unfold repCheck
  rw [if_neg h]

/-- Candidate periods below ten that divide 40000 fail on the test body
because the byte right after the candidate block differs from the first
byte. -/
theorem repCheck_lit_mismatch (d : Nat) (hpos : 0 < d) (hd : d < 10)
    (h2 : 2 ≤ 40000 / d)
    (hne : litestarBlock[d]? ≠ (litestarBlock.take d)[0]?) :
    repCheck litestarBody d = false := by
  apply repCheck_false_of_ne
  apply ne_of_getElem_ne _ _ d
  rw [litestarBody_getElem d hd, litestarBody_length,
    litestarBody_take_le d (by omega),
    flatten_replicate_period (litestarBlock.take d) (40000 / d) d h2
      (by rw [List.length_take]; simp [litestarBlock]; omega)
      (by rw [List.length_take]; simp [litestarBlock]; omega)]
  exact hne

theorem repCheck_lit_1 : repCheck litestarBody 1 = false :=
  repCheck_lit_mismatch 1 (by decide) (by decide) (by decide) (by decide)

theorem repCheck_lit_2 : repCheck litestarBody 2 = false :=
  repCheck_lit_mismatch 2 (by decide) (by decide) (by decide) (by decide)

theorem repCheck_lit_3 : repCheck litestarBody 3 = false := by
  apply repCheck_false_of_cond
  rw [litestarBody_length]
  decide

theorem repCheck_lit_4 : repCheck litestarBody 4 = false :=
  repCheck_lit_mismatch 4 (by decide) (by decide) (by decide) (by decide)

theorem repCheck_lit_5 : repCheck litestarBody 5 = false :=
  repCheck_lit_mismatch 5 (by decide) (by decide) (by decide) (by decide)

theorem repCheck_lit_6 : repCheck litestarBody 6 = false := by
  apply repCheck_false_of_cond
  rw [litestarBody_length]
  decide

theorem repCheck_lit_7 : repCheck litestarBody 7 = false := by
  apply repCheck_false_of_cond
  rw [litestarBody_length]
  decide

theorem repCheck_lit_8 : repCheck litestarBody 8 = false :=
  repCheck_lit_mismatch 8 (by decide) (by decide) (by decide) (by decide)

theorem repCheck_lit_9 : repCheck litestarBody 9 = false := by
  apply repCheck_false_of_cond
  rw [litestarBody_length]
  decide

/-- Period ten passes the repetition check on the test body. -/
theorem repCheck_lit_10 : repCheck litestarBody 10 = true := by
  unfold repCheck
  rw [if_pos]
  · rw [litestarBody_length, litestarBody_take10,
      show (40000 / 10 : Nat) = 4000 from rfl,
      show (List.replicate 4000 litestarBlock).flatten = litestarBody from rfl]
    exact beq_self_eq_true litestarBody
  · rw [litestarBody_length]
    decide

/-- Closed period search when every candidate fails. -/
theorem findPeriod_none_of (bs : List Nat) (k : Nat)
    (h : ∀ j, 1 ≤ j → j ≤ k → repCheck bs j = false) :
    findPeriod bs k = none := by
  induction k with
  | zero => rfl
  | succ m ih =>
    rw [findPeriod, ih fun j h1 h2 => h j h1 (by omega)]
    simp [h (m + 1) (by omega) (by omega)]

/-- Raising the search bound keeps an already-found period. -/
theorem findPeriod_mono (bs : List Nat) (k m d : Nat)
    (h : findPeriod bs k = some d) : findPeriod bs (k + m) = some d := by
  induction m with
  | zero => exact h
  | succ i ih => rw [show k + (i + 1) = (k + i) + 1 from rfl, findPeriod, ih]

/-- Concrete evaluation of the period search on the test body. -/
theorem findPeriod_lit : findPeriod litestarBody 16 = some 10 := by
  have h9 : findPeriod litestarBody 9 = none := by
    apply findPeriod_none_of
    intro j h1 h2
    interval_cases j
    · exact repCheck_lit_1
    · exact repCheck_lit_2
    · exact repCheck_lit_3
    · exact repCheck_lit_4
    · exact repCheck_lit_5
    · exact repCheck_lit_6
    · exact repCheck_lit_7
    · exact repCheck_lit_8
    · exact repCheck_lit_9
  have h10 : findPeriod litestarBody 10 = some 10 := by
    rw [show (10 : Nat) = 9 + 1 from rfl, findPeriod, h9]
    simp [repCheck_lit_10]
  exact findPeriod_mono litestarBody 10 6 10 h10

/-- Shape of the compressed frame once the period search resolves. -/
theorem docCompress_of_findPeriod (bs : List Nat) (d : Nat)
    (h : findPeriod bs 16 = some d) :
    docCompress bs =
      1 :: (unaryEnc d ++ unaryEnc (bs.length / d) ++ bs.take d) := by
  unfold docCompress
  rw [h]

/-- Concrete compressed frame of the test body. -/
theorem docCompress_lit :
    docCompress litestarBody =
      1 :: (unaryEnc 10 ++ unaryEnc 4000 ++ litestarBlock) := by
  rw [docCompress_of_findPeriod litestarBody 10 findPeriod_lit,
    litestarBody_length, litestarBody_take10,
    show (40000 / 10 : Nat) = 4000 from rfl]

/-- Length of a unary frame. -/
theorem unaryEnc_length (n : Nat) : (unaryEnc n).length = n + 1 := by
  simp [unaryEnc]

/-- Length of the compressed test body: far below 40000. -/
theorem docCompress_lit_length : (docCompress litestarBody).length = 4023 := by
  rw [docCompress_lit, List.length_cons, List.length_append,
    List.length_append, unaryEnc_length, unaryEnc_length]
  rfl

/-- Framing adds one magic byte to the compressed length. -/
theorem codecCompress_length (e : CEnc) (bs : List Nat) :
    (codecCompress e bs).length = (docCompress bs).length + 1 := by
  cases e <;> simp [codecCompress]

/-- Framed compressed length of the test body under either codec. -/
theorem codecCompress_lit_length (e : CEnc) :
    (codecCompress e litestarBody).length = 4024 := by
  rw [codecCompress_length, docCompress_lit_length]

/-! ## Stream transform engine lemmas -/

/-- Protocol-upgrade responses pass through unmodified. -/
theorem transformResponse_upgrade (cfg : CompressionConfig)
    (accept : List String) (resp : Response) (h : resp.isUpgrade = true) :
    transformResponse cfg accept resp = resp := by
  unfold transformResponse
  rw [if_pos h]

/-- Responses pass through unmodified when negotiation yields none. -/
theorem transformResponse_passthrough (cfg : CompressionConfig)
    (accept : List String) (resp : Response) (hup : resp.isUpgrade = false)
    (hneg : negotiate cfg accept = none) :
    transformResponse cfg accept resp = resp := by
  unfold transformResponse
  rw [if_neg (by simp [hup]), hneg]

/-- Engaged buffered path: the body is compressed whole, the negotiated
encoding is emitted and `Content-Length` reflects the compressed size. -/
theorem transformResponse_buffered_engaged (cfg : CompressionConfig)
    (accept : List String) (cl : Option Nat) (ce : Option CEnc)
    (data : List Nat) (e : CEnc) (hneg : negotiate cfg accept = some e)
    (hsize : ¬((data.length : Int) < cfg.minimum_size)) :
    transformResponse cfg accept
        { contentLength := cl, contentEncoding := ce,
          body := .buffered data, isUpgrade := false } =
      { contentLength := some (codecCompress e data).length,
        contentEncoding := some e,
        body := .buffered (codecCompress e data), isUpgrade := false } := by
  simp [transformResponse, hneg, hsize]

/-- Small-body exemption on the engaged path: the response is forwarded
unmodified. -/
theorem transformResponse_buffered_small (cfg : CompressionConfig)
    (accept : List String) (cl : Option Nat) (ce : Option CEnc)
    (data : List Nat) (e : CEnc) (hneg : negotiate cfg accept = some e)
    (hsize : (data.length : Int) < cfg.minimum_size) :
    transformResponse cfg accept
        { contentLength := cl, contentEncoding := ce,
          body := .buffered data, isUpgrade := false } =
      { contentLength := cl, contentEncoding := ce,
        body := .buffered data, isUpgrade := false } := by
  simp [transformResponse, hneg, hsize]

/-- Small buffered bodies pass through whatever negotiation decides. -/
theorem transformResponse_small_any (cfg : CompressionConfig)
    (accept : List String) (cl : Option Nat) (ce : Option CEnc)
    (data : List Nat) (hsize : (data.length : Int) < cfg.minimum_size) :
    transformResponse cfg accept
        { contentLength := cl, contentEncoding := ce,
          body := .buffered data, isUpgrade := false } =
      { contentLength := cl, contentEncoding := ce,
        body := .buffered data, isUpgrade := false } := by
  cases hneg : negotiate cfg accept with
  | none => exact transformResponse_passthrough cfg accept _ rfl hneg
  | some e => exact transformResponse_buffered_small cfg accept cl ce data e hneg hsize

/-- Engaged streamed path: chunkwise compression, the negotiated encoding
is emitted and no `Content-Length` is emitted. -/
theorem transformResponse_streamed_engaged (cfg : CompressionConfig)
    (accept : List String) (cl : Option Nat) (ce : Option CEnc)
    (chunks : List (List Nat)) (e : CEnc)
    (hneg : negotiate cfg accept = some e) :
    transformResponse cfg accept
        { contentLength := cl, contentEncoding := ce,
          body := .streamed chunks, isUpgrade := false } =
      { contentLength := none, contentEncoding := some e,
        body := .streamed (compressStream e chunks), isUpgrade := false } := by
  simp [transformResponse, hneg]

/-- State evolution of the adapter fold over a chunk stream. -/
theorem compressStream_foldl (chunks : List (List Nat))
    (outs : List (List Nat)) (e : CEnc) (b : List Nat) :
    chunks.foldl compressStreamStep (outs, { enc := e, buffer := b }) =
      (outs ++ chunks.map (fun c => ([] : List Nat)),
       { enc := e, buffer := b ++ chunks.flatten }) := by
  induction chunks generalizing outs b with
  | nil => simp
  | cons c cs ih =>
    rw [List.foldl_cons]
    show cs.foldl compressStreamStep
      (outs ++ [[]], { enc := e, buffer := b ++ c }) = _
    rw [ih]
    simp

/-- Flattening a stream of all-empty chunks yields nothing. -/
theorem flatten_map_nil (chunks : List (List Nat)) :
    (chunks.map (fun c => ([] : List Nat))).flatten = [] := by
  induction chunks with
  | nil => rfl
  | cons c cs ih => simp [ih]

/-- The concatenation of the transformed chunk stream is exactly the
compressed concatenation of the input chunks. -/
theorem compressStream_flatten (e : CEnc) (chunks : List (List Nat)) :
    (compressStream e chunks).flatten = codecCompress e chunks.flatten := by
  show ((chunks.foldl compressStreamStep
      ([], { enc := e, buffer := [] })).1
    ++ [(chunks.foldl compressStreamStep
      ([], { enc := e, buffer := [] })).2.finish]).flatten = _
  rw [compressStream_foldl]
  simp [CodecAdapter.finish, flatten_map_nil]

/-- Matching negotiation: when the client accepts the configured backend's
encoding under a default configuration, that encoding is selected. -/
theorem negotiate_matching (b : Backend) (accept : List String)
    (h : accept.contains (Backend.matching b).token = true) :
    negotiate (defaultConfig b) accept = some (Backend.matching b) := by
  cases b <;>
    simp [negotiate, defaultConfig, Backend.matching, CEnc.token] at h ⊢ <;>
    simp [h]

/-! ## Claim-specific data -/

/-- Chunk emitted ten times by the streaming handler of the test:
`b"_litestar_" * 400`, 4000 bytes. -/
def c2Chunk : List Nat := (List.replicate 400 litestarBlock).flatten

/-- Streamed test response: ten 4000-byte chunks, no length hint. -/
def c2Response : Response :=
  { contentLength := none, contentEncoding := none,
    body := .streamed (List.replicate 10 c2Chunk), isUpgrade := false }

/-- Brotli-backend configuration with the gzip fallback turned off. -/
def noFallbackConfig : CompressionConfig :=
  { defaultConfig .brotli with brotli_gzip_fallback := false }

/-- Response of the small-body test handler: the 10-byte body
`"_litestar_"` with its accurate `Content-Length`. -/
def smallResponse : Response :=
  { contentLength := some 10, contentEncoding := none,
    body := .buffered litestarBlock, isUpgrade := false }

/-- Success test of a config construction result. -/
def configOk {e a : Type} : Except e a → Bool
  | .ok _ => true
  | .error _ => false

/-! ## Claims -/

/-- C1: for the 40000-byte body of `"_litestar_"` repeated 4000 times,
whenever the client accepts the configured backend's matching encoding
(brotli or gzip), the response carries that matching `Content-Encoding`,
a `Content-Length` strictly below 40000, and decompressing the body with
the matching codec yields exactly the original 40000 bytes. -/
theorem claim_c1_buffered_roundtrip (b : Backend) (accept : List String)
    (h : accept.contains (Backend.matching b).token = true) :
    (transformResponse (defaultConfig b) accept handlerResponse).contentEncoding
        = some (Backend.matching b) ∧
    (∃ n, (transformResponse (defaultConfig b) accept
        handlerResponse).contentLength = some n ∧ n < 40000) ∧
    codecDecompress (Backend.matching b)
        (transformResponse (defaultConfig b) accept handlerResponse).bodyBytes
      = some litestarBody := by
  have hneg := negotiate_matching b accept h
  have hsize :
      ¬((litestarBody.length : Int) < (defaultConfig b).minimum_size) := by
    rw [litestarBody_length]
    cases b <;> decide
  have hh : handlerResponse =
      { contentLength := some 40000, contentEncoding := none,
        body := .buffered litestarBody, isUpgrade := false } := rfl
  have hr := transformResponse_buffered_engaged (defaultConfig b) accept
    (some 40000) none litestarBody (Backend.matching b) hneg hsize
  rw [hh, hr]
  refine ⟨rfl,
    ⟨(codecCompress (Backend.matching b) litestarBody).length, rfl, ?_⟩, ?_⟩
  · rw [codecCompress_lit_length]
    norm_num
  · exact codec_roundtrip (Backend.matching b) litestarBody

/-- Witness for C1: the brotli case with `Accept-Encoding: br`. -/
theorem claim_c1_buffered_roundtrip_witness :
    (["br"].contains (Backend.matching .brotli).token = true) ∧
    ((transformResponse (defaultConfig .brotli) ["br"]
        handlerResponse).contentEncoding = some (Backend.matching .brotli) ∧
     (∃ n, (transformResponse (defaultConfig .brotli) ["br"]
        handlerResponse).contentLength = some n ∧ n < 40000) ∧
     codecDecompress (Backend.matching .brotli)
        (transformResponse (defaultConfig .brotli) ["br"]
          handlerResponse).bodyBytes = some litestarBody) :=
  ⟨by decide, claim_c1_buffered_roundtrip .brotli ["br"] (by decide)⟩

/-- C2: for the streamed response of ten 4000-byte chunks with a client
accepting gzip and a gzip backend, the response names the negotiated
encoding, emits no `Content-Length`, and decompressing the concatenation
of all received body bytes yields the original 40000 bytes. -/
theorem claim_c2_streaming :
    (transformResponse (defaultConfig .gzip) ["gzip"]
        c2Response).contentEncoding = some CEnc.gzip ∧
    (transformResponse (defaultConfig .gzip) ["gzip"]
        c2Response).contentLength = none ∧
    codecDecompress CEnc.gzip
        (transformResponse (defaultConfig .gzip) ["gzip"]
          c2Response).bodyBytes = some litestarBody := by
  have hneg : negotiate (defaultConfig .gzip) ["gzip"] = some CEnc.gzip := by
    decide
  have hc : c2Response =
      { contentLength := none, contentEncoding := none,
        body := .streamed (List.replicate 10 c2Chunk),
        isUpgrade := false } := rfl
  have hr := transformResponse_streamed_engaged (defaultConfig .gzip)
    ["gzip"] none none (List.replicate 10 c2Chunk) CEnc.gzip hneg
  rw [hc, hr]
  refine ⟨rfl, rfl, ?_⟩
  show codecDecompress CEnc.gzip
    (compressStream CEnc.gzip (List.replicate 10 c2Chunk)).flatten =
    some litestarBody
  rw [compressStream_flatten]
  have hfl : (List.replicate 10 c2Chunk).flatten = litestarBody := by
    show (List.replicate 10
      (List.replicate 400 litestarBlock).flatten).flatten = litestarBody
    rw [flatten_replicate_flatten, show (10 * 400 : Nat) = 4000 from rfl,
      show (List.replicate 4000 litestarBlock).flatten = litestarBody
        from rfl]
  rw [hfl]
  exact codec_roundtrip CEnc.gzip litestarBody

/-- C3: configuration construction succeeds exactly when `minimum_size ≥
1`, `gzip_compress_level` lies in `[0, 9]`, `brotli_quality` lies in
`[0, 11]` and `brotli_lgwin` lies in `[10, 24]`; otherwise it fails with a
configuration error at construction time. -/
theorem claim_c3_config_validation (b : Backend) (ms gl bq : Int)
    (bm : BrotliMode) (blw : Int) (fb : Bool) :
    configOk (mkCompressionConfig b ms gl bq bm blw fb) = true ↔
      (1 ≤ ms ∧ (0 ≤ gl ∧ gl ≤ 9) ∧ (0 ≤ bq ∧ bq ≤ 11) ∧
        (10 ≤ blw ∧ blw ≤ 24)) := by
  unfold mkCompressionConfig
  split_ifs with h1 h2 h3 h4 <;> simp [configOk] <;> omega

/-- C4: with a brotli backend and a client accepting only gzip, the
response is gzip-compressed when the gzip fallback is enabled (encoding
gzip, length strictly below 40000) and passes through uncompressed when
it is disabled (no encoding, body unchanged, length 40000). -/
theorem claim_c4_gzip_fallback :
    ((transformResponse (defaultConfig .brotli) ["gzip"]
        handlerResponse).contentEncoding = some CEnc.gzip ∧
     (∃ n, (transformResponse (defaultConfig .brotli) ["gzip"]
        handlerResponse).contentLength = some n ∧ n < 40000) ∧
     codecDecompress CEnc.gzip
        (transformResponse (defaultConfig .brotli) ["gzip"]
          handlerResponse).bodyBytes = some litestarBody) ∧
    (transformResponse noFallbackConfig ["gzip"] handlerResponse =
        handlerResponse ∧
     (transformResponse noFallbackConfig ["gzip"]
        handlerResponse).contentEncoding = none ∧
     (transformResponse noFallbackConfig ["gzip"]
        handlerResponse).bodyBytes = litestarBody ∧
     (transformResponse noFallbackConfig ["gzip"]
        handlerResponse).contentLength = some 40000) := by
  constructor
  · have hneg : negotiate (defaultConfig .brotli) ["gzip"] =
        some CEnc.gzip := by decide
    have hsize : ¬((litestarBody.length : Int) <
        (defaultConfig .brotli).minimum_size) := by
      rw [litestarBody_length]
      decide
    have hh : handlerResponse =
        { contentLength := some 40000, contentEncoding := none,
          body := .buffered litestarBody, isUpgrade := false } := rfl
    have hr := transformResponse_buffered_engaged (defaultConfig .brotli)
      ["gzip"] (some 40000) none litestarBody CEnc.gzip hneg hsize
    rw [hh, hr]
    refine ⟨rfl, ⟨(codecCompress CEnc.gzip litestarBody).length, rfl, ?_⟩, ?_⟩
    · rw [codecCompress_lit_length]
      norm_num
    · exact codec_roundtrip CEnc.gzip litestarBody
  · have hneg : negotiate noFallbackConfig ["gzip"] = none := by decide
    have hpass := transformResponse_passthrough noFallbackConfig ["gzip"]
      handlerResponse rfl hneg
    rw [hpass]
    exact ⟨rfl, rfl, rfl, rfl⟩

/-- C5: a protocol-upgrade response passes through unmodified for every
configuration and every client accept list; in particular it never gains
a `Content-Encoding` header. -/
theorem claim_c5_upgrade_never_compressed (cfg : CompressionConfig)
    (accept : List String) (cl : Option Nat) (body : RBody) :
    transformResponse cfg accept
        { contentLength := cl, contentEncoding := none,
          body := body, isUpgrade := true } =
      { contentLength := cl, contentEncoding := none,
        body := body, isUpgrade := true } ∧
    (transformResponse cfg accept
        { contentLength := cl, contentEncoding := none,
          body := body, isUpgrade := true }).contentEncoding = none := by
  have h := transformResponse_upgrade cfg accept
    { contentLength := cl, contentEncoding := none,
      body := body, isUpgrade := true } rfl
  exact ⟨h, by rw [h]⟩

/-- C6: a buffered body of exactly 10 bytes under a default configuration
(`minimum_size` 500 > 10) is never compressed, whatever the client
accepts: no `Content-Encoding`, body unmodified, `Content-Length` still
10. -/
theorem claim_c6_small_body_exemption (b : Backend) (accept : List String) :
    transformResponse (defaultConfig b) accept smallResponse =
        smallResponse ∧
    (transformResponse (defaultConfig b) accept
        smallResponse).contentEncoding = none ∧
    (transformResponse (defaultConfig b) accept
        smallResponse).contentLength = some 10 ∧
    (transformResponse (defaultConfig b) accept
        smallResponse).bodyBytes = litestarBlock := by
  have hsize : (litestarBlock.length : Int) <
      (defaultConfig b).minimum_size := by
    cases b <;> decide
  have hs : smallResponse =
      { contentLength := some 10, contentEncoding := none,
        body := .buffered litestarBlock, isUpgrade := false } := rfl
  have h := transformResponse_small_any (defaultConfig b) accept (some 10)
    none litestarBlock hsize
  rw [hs, h]
  exact ⟨rfl, rfl, rfl, rfl⟩

/-- C7: with a brotli backend and a client accepting only `deflate`, the
response passes through uncompressed: no `Content-Encoding`, body bytes
unchanged, `Content-Length` still the original 40000. -/
theorem claim_c7_unsupported_client :
    transformResponse (defaultConfig .brotli) ["deflate"] handlerResponse =
        handlerResponse ∧
    (transformResponse (defaultConfig .brotli) ["deflate"]
        handlerResponse).contentEncoding = none ∧
    (transformResponse (defaultConfig .brotli) ["deflate"]
        handlerResponse).bodyBytes = litestarBody ∧
    (transformResponse (defaultConfig .brotli) ["deflate"]
        handlerResponse).contentLength = some 40000 := by
  have hneg : negotiate (defaultConfig .brotli) ["deflate"] = none := by
    decide
  have hpass := transformResponse_passthrough (defaultConfig .brotli)
    ["deflate"] handlerResponse rfl hneg
  rw [hpass]
  exact ⟨rfl, rfl, rfl, rfl⟩

/-- C8: in `test_regular_compressed_response` the client is constructed
with `CompressionConfig(backend="brotli")` for both parametrized cases —
the parametrized backend argument never reaches the config — so the gzip
case exercises the brotli backend's gzip fallback, not a gzip backend. -/
theorem claim_c8_test_config_ignores_backend :
    (∀ backend : String,
      testRegularCompressedResponseConfig backend =
        defaultConfig Backend.brotli) ∧
    (testRegularCompressedResponseConfig "gzip").backend = Backend.brotli ∧
    (testRegularCompressedResponseConfig "gzip").backend ≠ Backend.gzip ∧
    negotiate (testRegularCompressedResponseConfig "gzip") ["gzip"] =
      some CEnc.gzip ∧
    (testRegularCompressedResponseConfig "gzip").brotli_gzip_fallback =
      true :=
  ⟨fun _ => rfl, rfl, by decide, by decide, rfl⟩

/-- Serialized representation of `get_person`'s return value through
`ReadDTO`. -/
def readPersonJson (name : String) : JVal :=
  serializeReadDTO (get_person name)

/-- Serialized first child inside the `ReadDTO` representation. -/
def firstChildJson (name : String) : Option JVal :=
  ((readPersonJson name).getKey "children").bind JVal.firstItem

/-- Rendering of the child index zero used by the exclusion paths. -/
theorem toString_zero : toString (0 : Nat) = "0" := rfl

/-- C9: the `ReadDTO` serialization of every `get_person` value has no
top-level `email` key, exposes the address under `location` rather than
`address`, and its first child carries neither an `email` key nor an
address under any name. -/
theorem claim_c9_read_dto_shape (name : String) :
    (readPersonJson name).hasKey "email" = false ∧
    (readPersonJson name).hasKey "location" = true ∧
    (readPersonJson name).hasKey "address" = false ∧
    (firstChildJson name).map (fun c => c.hasKey "email") = some false ∧
    (firstChildJson name).map (fun c => c.hasKey "address") = some false ∧
    (firstChildJson name).map (fun c => c.hasKey "location") = some false := by
  simp [readPersonJson, serializeReadDTO, get_person, serializePerson,
    serializeChildren, serializeAddress, readDTOExclude, readDTORename,
    isExcluded, renameOf, subPaths, JVal.hasKey, JVal.getKey,
    JVal.firstItem, firstChildJson, child1, child2, tutorialAddress,
    Option.bind, toString_zero]

/-- C10: `OrderBy` defaults its sort order to ascending, `SearchFilter`
defaults `ignore_case` to `False`, and `BeforeAfter` permits both bounds
to be `None` at once. -/
theorem claim_c10_filter_defaults (f g fb : String) (v : String) :
    ({ field_name := f } : OrderBy).sort_order = SortOrder.asc ∧
    ({ field_name := g, value := v } : SearchFilter).ignore_case =
      some false ∧
    ({ field_name := fb, before := none, after := none } :
      BeforeAfter).before = none ∧
    ({ field_name := fb, before := none, after := none } :
      BeforeAfter).after = none :=
  ⟨rfl, rfl, rfl, rfl⟩
